import Mathlib

/-!
Shallow embedding of `src/plugins/techdocs-addons/src/context.tsx`
(Backstage TechDocs add-ons context providers and hooks).

Modelling conventions:
* `TechDocsMetadata` and `TechDocsEntityMetadata` are opaque external types,
  represented by type parameters `M` and `E`.
* A promise that settles is a `FetchOutcome` (resolved value or rejection
  reason); the `useAsync` hook state (`value`, `loading`, `error`) is the
  record projection of an `AsyncState`, mirroring react-use: while the
  promise is in flight `loading` is `true` and `value`/`error` are
  `undefined`; on resolution `value` is set; on rejection `error` is set.
  `undefined` is `Option.none`; under the source's TypeScript types the
  `error` field holds an `Error` (always truthy), so the JS truthiness
  test `!loading && error` is `!loading && error.isSome`.
* A React element tree returned by a provider component is a
  `ProviderRender`: either the app shell's not-found page (no children),
  or a context provider node wrapping the children with a context value.
* `useContext` on a context whose default is `undefined` is the identity
  on the (optional) provided value; on a context with a default value it
  is `Option.getD` of the provided value.
-/

structure CompoundEntityRef where
  kind : String
  name : String
  /-- the `namespace` field of the source (renamed: Lean keyword). -/
  nspace : String
deriving DecidableEq, Repr

/-- The two ways the promise returned by an api call can settle. -/
inductive FetchOutcome (α ε : Type) where
  | ok (v : α)
  | err (e : ε)
deriving DecidableEq, Repr

/-- State of `useAsync` over one issued fetch: in flight, resolved, or
rejected. -/
inductive AsyncState (α ε : Type) where
  | pending
  | success (v : α)
  | failure (e : ε)
deriving DecidableEq, Repr

variable {α ε M E C T : Type}

/-- The `loading` field of the `useAsync` result. -/
def asyncLoading : AsyncState α ε → Bool
  | .pending => true
  | .success _ => false
  | .failure _ => false

/-- The `value` field of the `useAsync` result (`undefined` unless
resolved). -/
def asyncValue : AsyncState α ε → Option α
  | .pending => none
  | .success v => some v
  | .failure _ => none

/-- The `error` field of the `useAsync` result (`undefined` unless
rejected). -/
def asyncError : AsyncState α ε → Option ε
  | .pending => none
  | .success _ => none
  | .failure e => some e

/-- The element tree a provider component returns: the shell's
`NotFoundErrorPage` (children dropped), or a `Context.Provider` node
holding a context value and the children. -/
inductive ProviderRender (α C : Type) where
  | notFoundErrorPage
  | contextProvider (value : Option α) (children : C)
deriving DecidableEq, Repr

/-- Render body of `TechDocsMetadataProvider` (context.tsx lines 51-59):
`if (!loading && error) return <NotFoundErrorPage />;` else wrap the
children in `TechDocsMetadataContext.Provider` with `value`. -/
def TechDocsMetadataProviderRender (st : AsyncState M ε) (children : C) :
    ProviderRender M C :=
  if !asyncLoading st && (asyncError st).isSome then
    .notFoundErrorPage
  else
    .contextProvider (asyncValue st) children

/-- Render body of `TechDocsEntityProvider` (context.tsx lines 86-94):
`if (!loading && error) return <NotFoundErrorPage />;` else wrap the
children in `TechDocsEntityContext.Provider` with `value`. -/
def TechDocsEntityProviderRender (st : AsyncState E ε) (children : C) :
    ProviderRender E C :=
  if !asyncLoading st && (asyncError st).isSome then
    .notFoundErrorPage
  else
    .contextProvider (asyncValue st) children

/-- Hook `useMetadata` (context.tsx lines 67-69): a direct
`useContext(TechDocsMetadataContext)` read; the context default is
`undefined`, so the hook returns exactly the provided context value. -/
def useMetadata (ctx : Option M) : Option M := ctx

/-- Hook `useEntityMetadata` (context.tsx lines 102-104): a direct
`useContext(TechDocsEntityContext)` read. -/
def useEntityMetadata (ctx : Option E) : Option E := ctx

/-- The slice of the techdocs api used by this module: the two
asynchronous metadata fetches. -/
structure TechDocsApi (M E ε : Type) where
  getTechDocsMetadata : CompoundEntityRef → FetchOutcome M ε
  getEntityMetadata : CompoundEntityRef → FetchOutcome E ε

/-- A provider component's observable behaviour: which fetch it issues
for the mount's entity name, and how it renders each fetch state. -/
structure ProviderBehavior (α ε C : Type) where
  fetch : CompoundEntityRef → FetchOutcome α ε
  render : AsyncState α ε → C → ProviderRender α C

/-- Component `TechDocsMetadataProvider` (context.tsx lines 40-60): fetches
`techdocsApi.getTechDocsMetadata(entityName)` once and renders per
`TechDocsMetadataProviderRender`. -/
def TechDocsMetadataProviderBehavior (api : TechDocsApi M E ε) :
    ProviderBehavior M ε C :=
  { fetch := fun entityName => api.getTechDocsMetadata entityName
  , render := fun st children => TechDocsMetadataProviderRender st children }

/-- Component `TechDocsEntityProvider` (context.tsx lines 75-95): fetches
`techdocsApi.getEntityMetadata(entityName)` once and renders per
`TechDocsEntityProviderRender`. -/
def TechDocsEntityProviderBehavior (api : TechDocsApi M E ε) :
    ProviderBehavior E ε C :=
  { fetch := fun entityName => api.getEntityMetadata entityName
  , render := fun st children => TechDocsEntityProviderRender st children }

/-!
Lifecycle of one mounted `TechDocsMetadataProvider` /
`TechDocsEntityProvider`. The source passes useAsync the fixed empty
dependency list `[]` (context.tsx lines 47-49 and 82-84), so the effect
issuing the fetch runs exactly once, at mount; re-renders (including prop
changes to `entityName`) never re-run it. The underlying promise settles
at most once, so at most one `fetchResolved` / `fetchRejected` event is
delivered per mount; the step function is a no-op for a settle event
arriving in an already-settled state.
-/

structure ProviderMountState (α ε : Type) where
  fetchState : AsyncState α ε
  /-- number of api calls issued so far in this mount. -/
  fetchCount : Nat
  entityName : CompoundEntityRef
deriving DecidableEq, Repr

/-- Mounting the provider: useAsync starts loading and the effect fires
the single fetch. -/
def providerMount (name : CompoundEntityRef) : ProviderMountState α ε :=
  { fetchState := .pending, fetchCount := 1, entityName := name }

/-- Events a mounted provider can observe: a re-render with a (possibly
changed) `entityName` prop, or the settling of the issued fetch. -/
inductive ProviderEvent (α ε : Type) where
  | rerender (newName : CompoundEntityRef)
  | fetchResolved (v : α)
  | fetchRejected (e : ε)
deriving DecidableEq, Repr

/-- One lifecycle step. A re-render leaves the useAsync state alone and
issues no fetch (empty dependency list); a settle event moves `pending`
to `success`/`failure` and is impossible (modelled as a no-op) once
settled. -/
def providerStep (s : ProviderMountState α ε) :
    ProviderEvent α ε → ProviderMountState α ε
  | .rerender newName => { s with entityName := newName }
  | .fetchResolved v =>
    match s.fetchState with
    | .pending => { s with fetchState := .success v }
    | _ => s
  | .fetchRejected e =>
    match s.fetchState with
    | .pending => { s with fetchState := .failure e }
    | _ => s

/-- The state after a mount followed by a sequence of events. -/
def runEvents (name : CompoundEntityRef) (es : List (ProviderEvent α ε)) :
    ProviderMountState α ε :=
  es.foldl providerStep (providerMount name)

/-!
Model of `TechDocsReaderPageProvider` and its hooks. The shadow root's query
surface is modelled by `querySelectorAll`, returning the list of matched
elements in document order; a `NodeList` and the `Array` produced by
`Array.from` are both Lean lists, so `Array.from` is the identity map.
The `Dispatch<SetStateAction<_>>` setter handles stored in the context
value carry no behaviour of their own (the behaviour lives in the
provider's state, below), so they are modelled as functions into `Unit`.
-/

structure ShadowRootModel (T : Type) where
  querySelectorAll : String → List T

/-- The context value type (context.tsx lines 106-114). -/
structure TechDocsReaderPageValue (T : Type) where
  entityName : CompoundEntityRef
  shadowRoot : Option (ShadowRootModel T)
  setShadowRoot : Option (ShadowRootModel T) → Unit
  title : String
  setTitle : String → Unit
  subtitle : String
  setSubtitle : String → Unit

/-- Value `defaultTechDocsReaderPageValue` (context.tsx lines 116-123): empty
strings, no-op setters, an all-empty entity reference, and (left
undefined in the source) no shadow root. -/
def defaultTechDocsReaderPageValue : TechDocsReaderPageValue T :=
  { title := ""
  , setTitle := fun _ => ()
  , subtitle := ""
  , setSubtitle := fun _ => ()
  , setShadowRoot := fun _ => ()
  , entityName := { kind := "", name := "", nspace := "" }
  , shadowRoot := none }

/-- Hook `useTechDocsReaderPage` (context.tsx lines 129-131):
`useContext(TechDocsReaderPageContext)`, whose default value is
`defaultTechDocsReaderPageValue`, so outside a provider the default is
returned. -/
def useTechDocsReaderPage (provided : Option (TechDocsReaderPageValue T)) :
    TechDocsReaderPageValue T :=
  provided.getD defaultTechDocsReaderPageValue

/-- Local state of a mounted `TechDocsReaderPageProvider` (context.tsx
lines 133-143): the `entityName` prop plus the three `useState` cells. -/
structure ReaderPageProviderState (T : Type) where
  entityName : CompoundEntityRef
  title : String
  subtitle : String
  shadowRoot : Option (ShadowRootModel T)

/-- Initial provider state: `useState` cells seeded from
`defaultTechDocsReaderPageValue`, `entityName` from the prop. -/
def readerPageProviderInit (entityName : CompoundEntityRef) :
    ReaderPageProviderState T :=
  { entityName
  , title := (defaultTechDocsReaderPageValue (T := T)).title
  , subtitle := (defaultTechDocsReaderPageValue (T := T)).subtitle
  , shadowRoot := (defaultTechDocsReaderPageValue (T := T)).shadowRoot }

/-- The `setTitle` state setter as a state transformer. -/
def setTitle (s : ReaderPageProviderState T) (t : String) :
    ReaderPageProviderState T :=
  { s with title := t }

/-- The `setSubtitle` state setter as a state transformer. -/
def setSubtitle (s : ReaderPageProviderState T) (t : String) :
    ReaderPageProviderState T :=
  { s with subtitle := t }

/-- The `setShadowRoot` state setter as a state transformer. -/
def setShadowRoot (s : ReaderPageProviderState T)
    (sr : Option (ShadowRootModel T)) : ReaderPageProviderState T :=
  { s with shadowRoot := sr }

/-- The context value `TechDocsReaderPageProvider` supplies on a render
from state `s` (context.tsx lines 145-158). -/
def readerPageProvidedValue (s : ReaderPageProviderState T) :
    TechDocsReaderPageValue T :=
  { entityName := s.entityName
  , shadowRoot := s.shadowRoot
  , setShadowRoot := fun _ => ()
  , title := s.title
  , setTitle := fun _ => ()
  , subtitle := s.subtitle
  , setSubtitle := fun _ => () }

/-- Hook `useShadowRoot` (context.tsx lines 167-170): reads `shadowRoot` from
the reader page context. -/
def useShadowRoot (provided : Option (TechDocsReaderPageValue T)) :
    Option (ShadowRootModel T) :=
  (useTechDocsReaderPage provided).shadowRoot

/-- Hook `useShadowRootElements` (context.tsx lines 183-193):
`if (!shadowRoot) return [];` then
`selectors.map(s => shadowRoot.querySelectorAll(s))
  .filter(nodeList => nodeList.length)
  .map(nodeList => Array.from(nodeList)).flat()`.
JS truthiness of `nodeList.length` keeps exactly the non-empty node
lists; `Array.from` is the identity on the list model. -/
def useShadowRootElements (provided : Option (TechDocsReaderPageValue T))
    (selectors : List String) : List T :=
  match useShadowRoot provided with
  | none => []
  | some shadowRoot =>
    ((((selectors.map
          (fun selector => shadowRoot.querySelectorAll selector)).filter
        (fun nodeList => nodeList.length != 0)).map
      (fun nodeList => nodeList)).flatten)

/-- A concrete shadow root for the worked example of the spec: selector
`"a"` matches two elements (in document order), every other selector
matches none. -/
def exampleShadowRoot : ShadowRootModel Nat :=
  { querySelectorAll := fun selector => if selector = "a" then [1, 2] else [] }

/-- A reader page context value holding `exampleShadowRoot`. -/
def exampleReaderPage : TechDocsReaderPageValue Nat :=
  { defaultTechDocsReaderPageValue with shadowRoot := some exampleShadowRoot }

/-- Dropping the empty lists before flattening changes nothing: the
`filter(nodeList => nodeList.length)` step of `useShadowRootElements` is
invisible in the flattened result. -/
theorem flatten_filter_length_ne_zero (ls : List (List T)) :
    (((ls.filter (fun l => l.length != 0)).map (fun l => l)).flatten : List T)
      = ls.flatten := by
  induction ls with
  | nil => rfl
  | cons l ls ih =>
    by_cases h : (l.length != 0) = true
    · simp only [List.filter_cons, h, eq_self_iff_true, if_true, List.map_cons,
        List.flatten_cons, ih]
    · have hnil : l = [] := by
        simpa [List.length_eq_zero] using h
      subst hnil
      simpa [List.filter_cons] using ih

/-- Stepping never issues a fetch: the api-call count is untouched
by every event. -/
theorem providerStep_fetchCount (s : ProviderMountState α ε)
    (e : ProviderEvent α ε) : (providerStep s e).fetchCount = s.fetchCount := by
  rcases s with ⟨fs, fc, n⟩
  cases e <;> cases fs <;> rfl

/-- Folding `providerStep` over any event sequence leaves the api-call
count unchanged. -/
theorem foldl_providerStep_fetchCount (es : List (ProviderEvent α ε))
    (s : ProviderMountState α ε) :
    (es.foldl providerStep s).fetchCount = s.fetchCount := by
  induction es generalizing s with
  | nil => rfl
  | cons e es ih => rw [List.foldl_cons, ih, providerStep_fetchCount]

/-- C1: if the metadata fetch rejects with any error value, both
`TechDocsMetadataProvider` and the structurally identical
`TechDocsEntityProvider` render the app shell's `NotFoundErrorPage`; the
result carries no children and no context value, so the subtree is
replaced rather than rendered with an undefined context. -/
theorem fetch_rejection_renders_not_found (e : ε) (children : C) :
    TechDocsMetadataProviderRender (M := M) (.failure e) children
        = .notFoundErrorPage
      ∧ TechDocsEntityProviderRender (E := E) (.failure e) children
        = .notFoundErrorPage :=
  ⟨rfl, rfl⟩

/-- C2: while the fetch is pending, `TechDocsMetadataProvider` renders
its children with the context value `undefined`; after the fetch
resolves with `v`, it renders the children with `some v` in context; and
`useMetadata` returns exactly the context value. -/
theorem provider_renders_children_with_context (v : M) (children : C)
    (ctx : Option M) :
    TechDocsMetadataProviderRender (M := M) (ε := ε) .pending children
        = .contextProvider none children
      ∧ TechDocsMetadataProviderRender (M := M) (ε := ε) (.success v) children
        = .contextProvider (some v) children
      ∧ useMetadata ctx = ctx :=
  ⟨rfl, rfl, rfl⟩

/-- C3: with a shadow root present, `useShadowRootElements` returns the
concatenation, in selector order, of each selector's matches in document
order, empty matches contributing nothing and nothing deduplicated; in
particular on `["a", "b"]` with `"a"` matching two elements and `"b"`
none, the result is exactly the two `"a"` matches in document order. -/
theorem useShadowRootElements_concat (root : ShadowRootModel T)
    (v : TechDocsReaderPageValue T) (selectors : List String) :
    useShadowRootElements (some { v with shadowRoot := some root }) selectors
        = (selectors.map root.querySelectorAll).flatten
      ∧ useShadowRootElements (some exampleReaderPage) ["a", "b"] = [1, 2] := by
  constructor
  · show (((selectors.map root.querySelectorAll).filter
        (fun nodeList => nodeList.length != 0)).map
          (fun nodeList => nodeList)).flatten
      = (selectors.map root.querySelectorAll).flatten
    exact flatten_filter_length_ne_zero _
  · rfl

/-- C4: per mounted provider the fetch machine starts pending, exactly
one fetch is issued at mount and none later (in particular not on entity
reference changes), the only transitions out of `pending` are to
`success` (on resolution) and `failure` (on rejection), and both settled
states are terminal, so `pending` is never re-entered. -/
theorem provider_fetch_lifecycle (name newName : CompoundEntityRef)
    (es : List (ProviderEvent α ε)) (s : ProviderMountState α ε)
    (ev : ProviderEvent α ε) (v : α) (x : ε) :
    (providerMount (α := α) (ε := ε) name).fetchState = .pending
      ∧ (providerMount (α := α) (ε := ε) name).fetchCount = 1
      ∧ (runEvents name es).fetchCount = 1
      ∧ (providerStep ({ s with fetchState := .pending } : ProviderMountState α ε)
          (.rerender newName)).fetchState = .pending
      ∧ (providerStep ({ s with fetchState := .pending } : ProviderMountState α ε)
          (.fetchResolved v)).fetchState = .success v
      ∧ (providerStep ({ s with fetchState := .pending } : ProviderMountState α ε)
          (.fetchRejected x)).fetchState = .failure x
      ∧ (providerStep { s with fetchState := .success v } ev).fetchState
        = .success v
      ∧ (providerStep { s with fetchState := .failure x } ev).fetchState
        = .failure x := by
  refine ⟨rfl, rfl, foldl_providerStep_fetchCount es _, rfl, rfl, rfl, ?_, ?_⟩
  · cases ev <;> rfl
  · cases ev <;> rfl

/-- C5: `useTechDocsReaderPage` outside any provider returns the
documented default value: empty title, empty subtitle, undefined shadow
root, and an entity reference whose kind, name and namespace are all
empty. -/
theorem useTechDocsReaderPage_default :
    useTechDocsReaderPage (T := T) none = defaultTechDocsReaderPageValue
      ∧ (useTechDocsReaderPage (T := T) none).title = ""
      ∧ (useTechDocsReaderPage (T := T) none).subtitle = ""
      ∧ (useTechDocsReaderPage (T := T) none).shadowRoot = none
      ∧ (useTechDocsReaderPage (T := T) none).entityName
        = { kind := "", name := "", nspace := "" } :=
  ⟨rfl, rfl, rfl, rfl, rfl⟩

/-- C6: with no shadow root present — whether inside a provider whose
shadow-root handle is still undefined, or outside any provider —
`useShadowRootElements` returns the empty sequence for every selector
list. -/
theorem useShadowRootElements_no_root (v : TechDocsReaderPageValue T)
    (selectors : List String) :
    useShadowRootElements (some { v with shadowRoot := none }) selectors = []
      ∧ useShadowRootElements (T := T) none selectors = [] :=
  ⟨rfl, rfl⟩

/-- C7: on the empty selector list `useShadowRootElements` returns the
empty sequence in every state, shadow root present or not. -/
theorem useShadowRootElements_nil (provided : Option (TechDocsReaderPageValue T)) :
    useShadowRootElements provided [] = [] := by
  unfold useShadowRootElements
  cases useShadowRoot provided <;> rfl

/-- C8: after `setTitle "X"`, the context value supplied on the next
render reads back title `"X"`; and each setter accepts any string or
shadow-root handle (it is total, with no validation). -/
theorem setTitle_read_next_render (s : ReaderPageProviderState T)
    (x sub : String) (sr : Option (ShadowRootModel T)) :
    (useTechDocsReaderPage
          (some (readerPageProvidedValue (setTitle s x)))).title = x
      ∧ (setTitle s x).title = x
      ∧ (setSubtitle s sub).subtitle = sub
      ∧ (setShadowRoot s sr).shadowRoot = sr :=
  ⟨rfl, rfl, rfl, rfl⟩

/-- C9: `TechDocsMetadataProvider` and `TechDocsEntityProvider` are
structurally identical: substituting the fetch operation
(`getEntityMetadata` for `getTechDocsMetadata`) in one yields exactly
the other's behaviour, whatever the unused other api method is. -/
theorem providers_structurally_identical
    (f : CompoundEntityRef → FetchOutcome α ε)
    (g : CompoundEntityRef → FetchOutcome E ε)
    (g' : CompoundEntityRef → FetchOutcome M ε) :
    TechDocsMetadataProviderBehavior (C := C)
        { getTechDocsMetadata := f, getEntityMetadata := g }
      = TechDocsEntityProviderBehavior (C := C)
        { getTechDocsMetadata := g', getEntityMetadata := f } := by
  unfold TechDocsMetadataProviderBehavior TechDocsEntityProviderBehavior
    TechDocsMetadataProviderRender TechDocsEntityProviderRender
  rfl

/-- C10: each reader-page setter mutates only its own field; the entity
reference is never mutated by any setter. -/
theorem setters_frame_conditions (s : ReaderPageProviderState T)
    (t : String) (sr : Option (ShadowRootModel T)) :
    ((setTitle s t).subtitle = s.subtitle
        ∧ (setTitle s t).shadowRoot = s.shadowRoot
        ∧ (setTitle s t).entityName = s.entityName)
      ∧ ((setSubtitle s t).title = s.title
        ∧ (setSubtitle s t).shadowRoot = s.shadowRoot
        ∧ (setSubtitle s t).entityName = s.entityName)
      ∧ ((setShadowRoot s sr).title = s.title
        ∧ (setShadowRoot s sr).subtitle = s.subtitle
        ∧ (setShadowRoot s sr).entityName = s.entityName) :=
  ⟨⟨rfl, rfl, rfl⟩, ⟨rfl, rfl, rfl⟩, ⟨rfl, rfl, rfl⟩⟩
